import Mathlib

/-
Shallow embedding of the vibration-detect repository
(src/vibration_detector.py, src/signal_processor.py, src/app.py).

Python floats are modelled as rationals (ℚ).  External library calls are
modelled as explicit oracle parameters:
  * `np.sqrt`  becomes a parameter `sqrt : ℚ → ℚ`,
  * `scipy.signal.filtfilt` (together with the butterworth coefficients
    `self.b, self.a` produced by `signal.butter`) becomes a parameter
    `filt : List ℚ → Option (List ℚ)`, where `none` models the call
    raising an exception (e.g. too few samples for filtfilt's padding),
  * the trigonometric / random ambient and spike contributions of
    `get_vibration_reading` become per-axis oracle inputs.
A Python `deque(maxlen = n)` is modelled as a `List` whose append keeps
only the `n` most recent elements (`pushBounded`), most recent last.
-/

namespace Vibration

/-- A sensor reading dictionary `{timestamp, x, y, z, magnitude}`. -/
structure Reading where
  timestamp : ℚ
  x : ℚ
  y : ℚ
  z : ℚ
  magnitude : ℚ
deriving DecidableEq, Repr

/-- The `n` most recent elements of `l` (what `deque(l, maxlen := n)` keeps). -/
def takeLast (n : ℕ) (l : List α) : List α :=
  l.drop (l.length - n)

/-- Append to a bounded deque: `deque.append` with `maxlen := n`. -/
def pushBounded (n : ℕ) (l : List α) (a : α) : List α :=
  takeLast n (l ++ [a])

/-- `np.mean` of a list of values (mean of the empty list is left at 0). -/
def mean (l : List ℚ) : ℚ := l.sum / l.length

/-! ## VibrationDetector (src/vibration_detector.py) -/

/-- State of `VibrationDetector`: `threshold`, `sensitivity` (a Python
string) and `last_reading_time`. -/
structure VibrationDetector where
  threshold : ℚ
  sensitivity : String
  last_reading_time : ℚ
deriving DecidableEq, Repr

/-- The `sensitivity_multipliers` dict; lookup of a key outside the dict
models a Python `KeyError` as `none`. -/
def sensitivity_multipliers : String → Option ℚ
  | "Low" => some (7/10)
  | "Medium" => some 1
  | "High" => some (13/10)
  | _ => none

/-- `VibrationDetector.set_threshold`: stores the value with no validation. -/
def set_threshold (d : VibrationDetector) (threshold : ℚ) : VibrationDetector :=
  { d with threshold := threshold }

/-- `VibrationDetector.set_sensitivity`: stores the value with no validation. -/
def set_sensitivity (d : VibrationDetector) (sensitivity : String) : VibrationDetector :=
  { d with sensitivity := sensitivity }

/-- `VibrationDetector.get_vibration_reading`.  The ambient sinusoid+noise
terms and the spike terms (functions of wall-clock time and the random
source) enter as oracles `ambient_x .. spike_z`; `np.sqrt` enters as the
oracle `sqrt`.  The method updates `last_reading_time` and then builds the
reading; a sensitivity string outside the multiplier dict raises
(`none`). -/
def get_vibration_reading (sqrt : ℚ → ℚ) (d : VibrationDetector)
    (current_time : ℚ)
    (ambient_x ambient_y ambient_z spike_x spike_y spike_z : ℚ)
    (now : ℚ) : VibrationDetector × Option Reading :=
  let d' := { d with last_reading_time := current_time }
  match sensitivity_multipliers d.sensitivity with
  | none => (d', none)
  | some sensitivity_factor =>
    let x := (ambient_x + spike_x) * sensitivity_factor
    let y := (ambient_y + spike_y) * sensitivity_factor
    let z := (ambient_z + spike_z) * sensitivity_factor
    let magnitude := sqrt (x ^ 2 + y ^ 2 + z ^ 2)
    (d', some { timestamp := now, x := x, y := y, z := z, magnitude := magnitude })

/-- `VibrationDetector.check_threshold`: `magnitude > self.threshold`. -/
def check_threshold (d : VibrationDetector) (magnitude : ℚ) : Bool :=
  magnitude > d.threshold

/-! ## SignalProcessor (src/signal_processor.py) -/

/-- `self.filter_order = 4`, never reassigned. -/
def filter_order : ℕ := 4

/-- `history_buffer = deque(maxlen=100)`. -/
def history_maxlen : ℕ := 100

/-- State of `SignalProcessor`.  The four smoothing buffers are deques
whose `maxlen` equals `smoothing_window` (they are created together in
`__init__` and replaced together in `set_smoothing_window`). -/
structure SignalProcessor where
  filter_enabled : Bool
  smoothing_window : ℕ
  history_buffer : List Reading
  x_buffer : List ℚ
  y_buffer : List ℚ
  z_buffer : List ℚ
  magnitude_buffer : List ℚ
deriving DecidableEq, Repr

/-- `SignalProcessor.set_filter_enabled`. -/
def set_filter_enabled (p : SignalProcessor) (enabled : Bool) : SignalProcessor :=
  { p with filter_enabled := enabled }

/-- `SignalProcessor.set_smoothing_window`: store the new window and
rebuild each smoothing deque from its current contents with the new
`maxlen` (the deque constructor keeps the most recent elements). -/
def set_smoothing_window (p : SignalProcessor) (window_size : ℕ) : SignalProcessor :=
  { p with
    smoothing_window := window_size
    x_buffer := takeLast window_size p.x_buffer
    y_buffer := takeLast window_size p.y_buffer
    z_buffer := takeLast window_size p.z_buffer
    magnitude_buffer := takeLast window_size p.magnitude_buffer }

/-- The body of the `try:` block of `apply_noise_filter`: extract the
per-axis series from the buffered history, run `filtfilt` on each (the
oracle `filt`; `none` = the scipy call raised), take the last filtered
sample of each axis, and recompute magnitude from the three filtered
components.  Any failure inside yields `none` (the raised exception). -/
def filterStep (filt : List ℚ → Option (List ℚ)) (sqrt : ℚ → ℚ)
    (recent_data : List Reading) (data : Reading) : Option Reading :=
  let x_values := recent_data.map (·.x)
  let y_values := recent_data.map (·.y)
  let z_values := recent_data.map (·.z)
  match filt x_values, filt y_values, filt z_values with
  | some x_filtered, some y_filtered, some z_filtered =>
    match x_filtered.getLast?, y_filtered.getLast?, z_filtered.getLast? with
    | some xl, some yl, some zl =>
      some { timestamp := data.timestamp, x := xl, y := yl, z := zl,
             magnitude := sqrt (xl ^ 2 + yl ^ 2 + zl ^ 2) }
    | _, _, _ => none
  | _, _, _ => none

/-- `SignalProcessor.apply_noise_filter`.  Disabled: pure passthrough.
Enabled: append to the bounded history; with fewer than
`filter_order + 1` buffered points return the raw reading; otherwise run
`filterStep` over the whole history, falling back to the raw reading if
it raises (`except Exception: return data`). -/
def apply_noise_filter (filt : List ℚ → Option (List ℚ)) (sqrt : ℚ → ℚ)
    (p : SignalProcessor) (data : Reading) : SignalProcessor × Reading :=
  if p.filter_enabled = false then
    (p, data)
  else
    let p' := { p with history_buffer := pushBounded history_maxlen p.history_buffer data }
    if p'.history_buffer.length < filter_order + 1 then
      (p', data)
    else
      match filterStep filt sqrt p'.history_buffer data with
      | some filtered_data => (p', filtered_data)
      | none => (p', data)

/-- `SignalProcessor.apply_smoothing`: append the components to the
per-axis bounded buffers, average each buffer, and recompute magnitude
from the three smoothed components.  (`magnitude_buffer` is not written
by this method.) -/
def apply_smoothing (sqrt : ℚ → ℚ) (p : SignalProcessor) (data : Reading) :
    SignalProcessor × Reading :=
  let xb := pushBounded p.smoothing_window p.x_buffer data.x
  let yb := pushBounded p.smoothing_window p.y_buffer data.y
  let zb := pushBounded p.smoothing_window p.z_buffer data.z
  let smoothed_x := mean xb
  let smoothed_y := mean yb
  let smoothed_z := mean zb
  let smoothed_magnitude := sqrt (smoothed_x ^ 2 + smoothed_y ^ 2 + smoothed_z ^ 2)
  ({ p with x_buffer := xb, y_buffer := yb, z_buffer := zb },
   { timestamp := data.timestamp, x := smoothed_x, y := smoothed_y,
     z := smoothed_z, magnitude := smoothed_magnitude })

/-- `SignalProcessor.process_signal`: noise filter then smoothing. -/
def process_signal (filt : List ℚ → Option (List ℚ)) (sqrt : ℚ → ℚ)
    (p : SignalProcessor) (raw_data : Reading) : SignalProcessor × Reading :=
  let fd := apply_noise_filter filt sqrt p raw_data
  apply_smoothing sqrt fd.1 fd.2

/-! ## Monitoring control (src/app.py) -/

/-- The app state relevant to start/stop: the `st.session_state.monitoring`
flag and the number of worker threads spawned so far. -/
structure AppState where
  monitoring : Bool
  workers : ℕ
deriving DecidableEq, Repr

/-- `start_monitoring`: sets `monitoring = True` and unconditionally
starts a new `monitoring_loop` thread. -/
def start_monitoring (s : AppState) : AppState :=
  { monitoring := true, workers := s.workers + 1 }

/-- The sidebar Start button is rendered with
`disabled = st.session_state.monitoring`. -/
def startButtonDisabled (s : AppState) : Bool := s.monitoring

/-- A click on the Start button: `start_monitoring` runs only when the
button is not disabled. -/
def clickStart (s : AppState) : AppState :=
  if startButtonDisabled s then s else start_monitoring s

/-- The data-model invariant: a reading's magnitude is `sqrt` of the sum
of squares of its own components. -/
def ReadingInvariant (sqrt : ℚ → ℚ) (r : Reading) : Prop :=
  r.magnitude = sqrt (r.x ^ 2 + r.y ^ 2 + r.z ^ 2)

/-! Concrete sample values used to evaluate the definitions. -/

/-- A reading satisfying the invariant for `sqrt := id` (1+4+9 = 14). -/
def sampleReading : Reading :=
  { timestamp := 0, x := 1, y := 2, z := 3, magnitude := 14 }

/-- The all-zero reading. -/
def zeroReading : Reading :=
  { timestamp := 0, x := 0, y := 0, z := 0, magnitude := 0 }

/-- A detector in its `__init__` configuration. -/
def sampleDetector : VibrationDetector :=
  { threshold := 2, sensitivity := "Medium", last_reading_time := 0 }

/-- A processor in its `__init__` configuration (empty buffers). -/
def emptyProcessor : SignalProcessor :=
  { filter_enabled := true, smoothing_window := 5, history_buffer := [],
    x_buffer := [], y_buffer := [], z_buffer := [], magnitude_buffer := [] }

/-- A processor with the noise filter disabled. -/
def disabledProcessor : SignalProcessor :=
  { emptyProcessor with filter_enabled := false }

/-- A processor with `smoothing_window = 1`. -/
def windowOneProcessor : SignalProcessor :=
  { emptyProcessor with smoothing_window := 1 }

/-- A processor whose smoothing buffers hold `[1,2,3,4,5]` (the spec's
resize example). -/
def fullBufferProcessor : SignalProcessor :=
  { emptyProcessor with
    x_buffer := [1, 2, 3, 4, 5], y_buffer := [1, 2, 3, 4, 5],
    z_buffer := [1, 2, 3, 4, 5], magnitude_buffer := [1, 2, 3, 4, 5] }

/-- A square-root oracle instance: the identity function. -/
def idSqrt : ℚ → ℚ := fun q => q

/-- A filtfilt oracle that always raises. -/
def failFilt : List ℚ → Option (List ℚ) := fun _ => none

/-- `new` holds exactly the `M` most recent elements of `old`, in order:
it equals `takeLast M old`, is a suffix of `old` of length
`min M old.length`, and is all of `old` when `old` has at most `M`
elements. -/
def RetainsRecent (M : ℕ) (old new : List ℚ) : Prop :=
  new = takeLast M old ∧ new <:+ old ∧ new.length = min M old.length ∧
  (old.length ≤ M → new = old)

/-! ## Helper lemmas about bounded deques -/

theorem takeLast_of_le {l : List α} {n : ℕ} (h : l.length ≤ n) :
    takeLast n l = l := by
  simp [takeLast, Nat.sub_eq_zero_of_le h]

theorem takeLast_suffix (n : ℕ) (l : List α) : takeLast n l <:+ l :=
  List.drop_suffix _ _

theorem takeLast_length (n : ℕ) (l : List α) :
    (takeLast n l).length = min n l.length := by
  simp [takeLast]; omega

theorem pushBounded_one (l : List α) (a : α) : pushBounded 1 l a = [a] := by
  have h : (l ++ [a]).length - 1 = l.length := by simp
  simp only [pushBounded, takeLast, h]
  exact List.drop_left l [a]

theorem mean_singleton (a : ℚ) : mean [a] = a := by
  simp [mean]

/-! ## Claim theorems -/

/-- C2: `check_threshold m` is true exactly when `m > threshold`, the
comparison is strict (equality does not trigger, any positive `ε` above
the threshold does), and the result depends only on the stored threshold,
never on the sensitivity level. -/
theorem check_threshold_strict (d : VibrationDetector) (m ε : ℚ) :
    (check_threshold d m = true ↔ m > d.threshold) ∧
    check_threshold d d.threshold = false ∧
    (0 < ε → check_threshold d (d.threshold + ε) = true) ∧
    (∀ d' : VibrationDetector, d'.threshold = d.threshold →
      check_threshold d' m = check_threshold d m) := by
  refine ⟨by simp [check_threshold], by simp [check_threshold], ?_, ?_⟩
  · intro hε
    simp only [check_threshold, decide_eq_true_eq]
    linarith
  · intro d' h
    simp [check_threshold, h]

/-- Witness for C2 at the detector's default threshold 2. -/
theorem check_threshold_strict_witness :
    check_threshold sampleDetector (sampleDetector.threshold + 1) = true :=
  (check_threshold_strict sampleDetector 0 1).2.2.1 (by norm_num)

/-- C3 counterexample: the setters accept and store invalid values — a
non-positive threshold, a sensitivity level outside the three known
levels, and a smoothing window below 1 are all silently stored, replacing
the prior configuration, with no error reported. -/
theorem setters_store_invalid_values :
    (set_threshold sampleDetector (-1)).threshold = -1 ∧
    (set_sensitivity sampleDetector "Extreme").sensitivity = "Extreme" ∧
    (set_smoothing_window emptyProcessor 0).smoothing_window = 0 :=
  ⟨rfl, rfl, rfl⟩

/-- C3 amended: the configuration setters perform no validation at all —
`set_threshold`, `set_sensitivity` and `set_smoothing_window` store
whatever value they are given (including non-positive thresholds, unknown
sensitivity strings and windows below 1), replacing the prior
configuration; no error is reported and no default is substituted.  Range
enforcement exists only in the UI widgets of app.py. -/
theorem setters_unvalidated (d : VibrationDetector) (t : ℚ) (s : String)
    (p : SignalProcessor) (w : ℕ) :
    set_threshold d t = { d with threshold := t } ∧
    set_sensitivity d s = { d with sensitivity := s } ∧
    (set_smoothing_window p w).smoothing_window = w :=
  ⟨rfl, rfl, rfl⟩

/-- C4 counterexample: `start_monitoring` itself contains no re-entrancy
guard — invoked in a state that is already Running with one worker, it
spawns a second worker thread. -/
theorem start_monitoring_spawns_second_worker :
    (start_monitoring { monitoring := true, workers := 1 }).workers = 2 :=
  rfl

/-- C4 amended: the re-entrancy guard lives in the UI, not in
`start_monitoring`: the Start button is disabled whenever `monitoring` is
true, so a button-mediated start while Running is a no-op and spawns no
second worker; `start_monitoring` called directly while Running would
spawn another worker thread. -/
theorem click_start_guarded (s : AppState) (h : s.monitoring = true) :
    clickStart s = s := by
  simp [clickStart, startButtonDisabled, h]

/-- Witness for the amended C4: clicking Start in a Running state with
one worker changes nothing. -/
theorem click_start_guarded_witness :
    clickStart { monitoring := true, workers := 1 } =
      { monitoring := true, workers := 1 } :=
  click_start_guarded { monitoring := true, workers := 1 } rfl

/-- C6: with the filter disabled, `apply_noise_filter` returns its input
reading unchanged. -/
theorem noise_filter_disabled_identity (filt : List ℚ → Option (List ℚ))
    (sqrt : ℚ → ℚ) (p : SignalProcessor) (d : Reading)
    (h : p.filter_enabled = false) :
    (apply_noise_filter filt sqrt p d).2 = d := by
  simp [apply_noise_filter, h]

/-- Witness for C6 on a concrete disabled processor. -/
theorem noise_filter_disabled_identity_witness :
    (apply_noise_filter failFilt idSqrt disabledProcessor sampleReading).2 =
      sampleReading :=
  noise_filter_disabled_identity failFilt idSqrt disabledProcessor
    sampleReading rfl

/-- C10: with the filter disabled, `apply_noise_filter` leaves the whole
processor state — in particular the filter history — untouched, for a
single call and along any sequence of calls. -/
theorem noise_filter_disabled_frame (filt : List ℚ → Option (List ℚ))
    (sqrt : ℚ → ℚ) (p : SignalProcessor) (h : p.filter_enabled = false) :
    (∀ d : Reading, (apply_noise_filter filt sqrt p d).1 = p) ∧
    (∀ ds : List Reading,
      ds.foldl (fun s d => (apply_noise_filter filt sqrt s d).1) p = p) := by
  have hstep : ∀ d : Reading, (apply_noise_filter filt sqrt p d).1 = p := by
    intro d
    simp [apply_noise_filter, h]
  refine ⟨hstep, ?_⟩
  intro ds
  induction ds with
  | nil => rfl
  | cons d ds ih => simpa [List.foldl_cons, hstep d] using ih

/-- Witness for C10: a disabled processor's state is untouched by a call
and by a two-element sequence of calls. -/
theorem noise_filter_disabled_frame_witness :
    (apply_noise_filter failFilt idSqrt disabledProcessor zeroReading).1 =
      disabledProcessor ∧
    [zeroReading, zeroReading].foldl
      (fun s d => (apply_noise_filter failFilt idSqrt s d).1)
      disabledProcessor = disabledProcessor :=
  ⟨(noise_filter_disabled_frame failFilt idSqrt disabledProcessor rfl).1
      zeroReading,
   (noise_filter_disabled_frame failFilt idSqrt disabledProcessor rfl).2
      [zeroReading, zeroReading]⟩

/-- C7: with the filter enabled, `apply_noise_filter` first appends the
raw reading to the bounded history; if the post-append history holds
fewer than `filter_order + 1 = 5` readings it returns the raw reading
unchanged (passthrough, not an error). -/
theorem noise_filter_warmup_passthrough (filt : List ℚ → Option (List ℚ))
    (sqrt : ℚ → ℚ) (p : SignalProcessor) (d : Reading)
    (hen : p.filter_enabled = true)
    (hlen : (pushBounded history_maxlen p.history_buffer d).length <
      filter_order + 1) :
    apply_noise_filter filt sqrt p d =
      ({ p with history_buffer := pushBounded history_maxlen p.history_buffer d },
       d) := by
  simp [apply_noise_filter, hen, hlen]

/-- Witness for C7: the first reading fed to a fresh enabled processor is
passed through and lands in the history. -/
theorem noise_filter_warmup_passthrough_witness :
    apply_noise_filter failFilt idSqrt emptyProcessor sampleReading =
      ({ emptyProcessor with history_buffer := [sampleReading] },
       sampleReading) :=
  noise_filter_warmup_passthrough failFilt idSqrt emptyProcessor
    sampleReading rfl (by decide)

/-- C8: whenever the filtering computation fails (the `filterStep` over
the appended history raises, i.e. yields `none`), `apply_noise_filter`
catches the failure and returns the raw input reading unchanged; no error
reaches the caller. -/
theorem noise_filter_fallback (filt : List ℚ → Option (List ℚ))
    (sqrt : ℚ → ℚ) (p : SignalProcessor) (d : Reading)
    (hfail : filterStep filt sqrt
      (pushBounded history_maxlen p.history_buffer d) d = none) :
    (apply_noise_filter filt sqrt p d).2 = d := by
  cases hen : p.filter_enabled with
  | false => simp [apply_noise_filter, hen]
  | true =>
    simp only [apply_noise_filter, hen, Bool.true_eq_false, if_false, hfail]
    split <;> rfl

/-- Witness for C8: with a filtfilt oracle that always raises and a
history already holding four readings, the fifth reading triggers the
filter branch, the failure is caught, and the raw reading is returned. -/
theorem noise_filter_fallback_witness :
    (apply_noise_filter failFilt idSqrt
      { emptyProcessor with
        history_buffer := [zeroReading, zeroReading, zeroReading, zeroReading] }
      sampleReading).2 = sampleReading :=
  noise_filter_fallback failFilt idSqrt
    { emptyProcessor with
      history_buffer := [zeroReading, zeroReading, zeroReading, zeroReading] }
    sampleReading rfl

/-- Any reading successfully produced by the filtering computation has
its magnitude recomputed from its own components. -/
theorem filterStep_invariant (filt : List ℚ → Option (List ℚ))
    (sqrt : ℚ → ℚ) (recent_data : List Reading) (data r : Reading)
    (h : filterStep filt sqrt recent_data data = some r) :
    ReadingInvariant sqrt r := by
  simp only [filterStep] at h
  split at h
  · split at h
    · injection h with h
      subst h
      rfl
    · exact Option.noConfusion h
  · exact Option.noConfusion h

/-- C1: every stage that produces a Reading satisfies
`magnitude = sqrt (x² + y² + z²)` of its own components — signal
generation builds magnitude from the freshly generated components, the
noise filter recomputes it from the filtered components (and passes the
input through otherwise), and smoothing recomputes it from the smoothed
component means; no stage filters or averages magnitudes directly. -/
theorem magnitude_recomputed_every_stage (filt : List ℚ → Option (List ℚ))
    (sqrt : ℚ → ℚ) :
    (∀ (det : VibrationDetector) (ct ax ay az sx sy sz now : ℚ)
        (r : Reading),
      (get_vibration_reading sqrt det ct ax ay az sx sy sz now).2 = some r →
      ReadingInvariant sqrt r) ∧
    (∀ (p : SignalProcessor) (d : Reading), ReadingInvariant sqrt d →
      ReadingInvariant sqrt (apply_noise_filter filt sqrt p d).2) ∧
    (∀ (p : SignalProcessor) (d : Reading),
      ReadingInvariant sqrt (apply_smoothing sqrt p d).2) := by
  refine ⟨?_, ?_, ?_⟩
  · intro det ct ax ay az sx sy sz now r hr
    cases hm : sensitivity_multipliers det.sensitivity with
    | none => simp [get_vibration_reading, hm] at hr
    | some f =>
      simp only [get_vibration_reading, hm, Option.some.injEq] at hr
      subst hr
      rfl
  · intro p d hinv
    cases hen : p.filter_enabled with
    | false => simpa [apply_noise_filter, hen] using hinv
    | true =>
      simp only [apply_noise_filter, hen, Bool.true_eq_false, if_false]
      split
      · exact hinv
      · split
        · next r heq => exact filterStep_invariant filt sqrt _ _ r heq
        · exact hinv
  · intro p d
    rfl

/-- Witness for C1: the invariant holds for a concrete generated reading
and for a concrete filtered reading. -/
theorem magnitude_recomputed_witness :
    ReadingInvariant idSqrt zeroReading ∧
    ReadingInvariant idSqrt
      (apply_noise_filter failFilt idSqrt emptyProcessor sampleReading).2 := by
  refine ⟨?_, ?_⟩
  · exact (magnitude_recomputed_every_stage failFilt idSqrt).1 sampleDetector
      0 0 0 0 0 0 0 0 zeroReading
      (by norm_num [get_vibration_reading, sampleDetector,
        sensitivity_multipliers, zeroReading, idSqrt])
  · exact (magnitude_recomputed_every_stage failFilt idSqrt).2.1
      emptyProcessor sampleReading
      (by norm_num [ReadingInvariant, sampleReading, idSqrt])

/-- C5: with `smoothing_window = 1`, smoothing is the identity on any
input reading satisfying the data-model invariant, whatever the prior
buffer contents. -/
theorem smoothing_window_one_identity (sqrt : ℚ → ℚ) (p : SignalProcessor)
    (d : Reading) (hw : p.smoothing_window = 1)
    (hinv : ReadingInvariant sqrt d) :
    (apply_smoothing sqrt p d).2 = d := by
  cases d with
  | mk ts x y z mag =>
    simp only [ReadingInvariant] at hinv
    simp [apply_smoothing, hw, pushBounded_one, mean_singleton, hinv]

/-- Witness for C5: a window-1 processor passes a concrete
invariant-satisfying reading through unchanged. -/
theorem smoothing_window_one_identity_witness :
    (apply_smoothing idSqrt windowOneProcessor sampleReading).2 =
      sampleReading :=
  smoothing_window_one_identity idSqrt windowOneProcessor sampleReading rfl
    (by norm_num [ReadingInvariant, sampleReading, idSqrt])

/-- C9: `set_smoothing_window` stores the new window and rebuilds each of
the four smoothing buffers so that it retains exactly the `M` most recent
previously-buffered samples, in order; resizing to a capacity at least
the current length preserves the contents entirely. -/
theorem smoothing_window_resize (p : SignalProcessor) (M : ℕ) :
    (set_smoothing_window p M).smoothing_window = M ∧
    RetainsRecent M p.x_buffer (set_smoothing_window p M).x_buffer ∧
    RetainsRecent M p.y_buffer (set_smoothing_window p M).y_buffer ∧
    RetainsRecent M p.z_buffer (set_smoothing_window p M).z_buffer ∧
    RetainsRecent M p.magnitude_buffer
      (set_smoothing_window p M).magnitude_buffer := by
  have hr : ∀ l : List ℚ, RetainsRecent M l (takeLast M l) := fun l =>
    ⟨rfl, takeLast_suffix M l, takeLast_length M l, fun h => takeLast_of_le h⟩
  exact ⟨rfl, hr _, hr _, hr _, hr _⟩

/-- Witness for C9: the spec's example — a buffer `[1,2,3,4,5]` resized
to 2 becomes `[4,5]`, and resized to 7 is preserved unchanged. -/
theorem smoothing_window_resize_witness :
    (set_smoothing_window fullBufferProcessor 2).x_buffer = [4, 5] ∧
    (set_smoothing_window fullBufferProcessor 7).magnitude_buffer =
      [1, 2, 3, 4, 5] := by
  constructor
  · have h := (smoothing_window_resize fullBufferProcessor 2).2.1.1
    rw [h]
    decide
  · exact (smoothing_window_resize fullBufferProcessor 7).2.2.2.2.2.2.2
      (by decide)

end Vibration
